import Mathlib

/-!
Verification of the field/filter translation and query-building engine of the
ac-mediator repository (src/services/acservice/search.py), as a shallow
embedding in Lean 4.

Python values flowing through the engine (parse elements, translated filter
values, rendered tokens) are modelled by the inductive type `Py`; Python
dictionaries by association lists with unique keys; raising an exception by
returning `Except.error`.  Adapter subclasses (which override mapping
properties, translator methods and render methods) are modelled as structures
whose fields hold those overrides.
-/

namespace ACMediator

/-- Python values that flow through the search/filter engine: numbers (int and
float collapsed into `Int`), strings, 2-tuples, `pyparsing.ParseResults`
(a sequence of values) and `None`. -/
inductive Py where
  | num : Int → Py
  | str : String → Py
  | tuple2 : Py → Py → Py
  | results : List Py → Py
  | none : Py

/-- Exceptions of the mediator that the embedded code raises or propagates:
`ACFilterParsingException` and `ACFieldTranslateException` from
`ac_mediator.exceptions` (each carrying its message), plus an escape hatch for
an uncaught builtin Python exception (carrying its class name). -/
inductive ACError where
  | filterParsing : String → ACError
  | fieldTranslate : String → ACError
  | pyError : String → ACError
deriving DecidableEq, Repr

/-- Python exception class name of a raised `ACError`. -/
def exceptionClass : ACError → String
  | .filterParsing _ => "ACFilterParsingException"
  | .fieldTranslate _ => "ACFieldTranslateException"
  | .pyError c => c

/-- Outcome of calling an adapter-supplied field-translator method (a method
registered through the `translates_field` decorator): either a returned value,
or a raised exception carrying its class name and message. -/
inductive MethodResult where
  | ok : Py → MethodResult
  | raised : String → String → MethodResult

/-- Outcome of calling an adapter-supplied filter-translator method (a method
registered through the `translates_filter_for_field` decorator): a returned
(key, value) pair, or a raised `KeyError`, a raised `ACFilterParsingException`,
or any other raised exception (class name and message). -/
inductive TransResult where
  | ok : String → Py → TransResult
  | keyError : String → TransResult
  | acFilterParsingError : String → TransResult
  | otherError : String → String → TransResult

/-- Model of `str.upper()` (the filter grammar only uses ASCII operators):
uppercase every character of the string. -/
def pyUpper (s : String) : String := ⟨s.data.map Char.toUpper⟩

/-- Python dict update `d[k] = v`: replace the value when the key exists
(keeping insertion order), append otherwise. -/
def dictSet (d : List (String × Py)) (k : String) (v : Py) : List (String × Py) :=
  if d.any (·.1 == k) then d.map (fun p => if p.1 == k then (k, v) else p)
  else d ++ [(k, v)]

/-- Adapter state for `BaseACServiceSearchMixin`: the `direct_fields_mapping`
property and the `translate_field_methods_registry` built by `conf_search`.
Translator methods take the raw result dictionary. -/
structure BaseAdapter where
  direct_fields_mapping : List (String × String)
  translate_field_methods_registry : List (String × (List (String × Py) → MethodResult))

/-- Embedding of `BaseACServiceSearchMixin.translate_field` (search.py lines
79-105).  The direct mapping is consulted first; a missing dictionary key in
`result` raises `KeyError` which the generic `except` wraps (the `str` of a
Python `KeyError` is the quoted key); a translator method's exception is
wrapped with its class name and message; a field in neither registry falls
through to the final `(unexpected field)` raise. -/
def translate_field (a : BaseAdapter) (ac_field_name : String)
    (result : List (String × Py)) : Except ACError Py :=
  match a.direct_fields_mapping.lookup ac_field_name with
  | some mapped =>
    match result.lookup mapped with
    | some v => .ok v
    | Option.none => .error (.fieldTranslate
        ("Can't translate field '" ++ ac_field_name ++ "' (KeyError: '" ++ mapped ++ "')"))
  | Option.none =>
    match a.translate_field_methods_registry.lookup ac_field_name with
    | some m =>
      match m result with
      | .ok v => .ok v
      | .raised cls msg => .error (.fieldTranslate
          ("Can't translate field '" ++ ac_field_name ++ "' (" ++ cls ++ ": " ++ msg ++ ")"))
    | Option.none => .error (.fieldTranslate
        ("Can't translate field '" ++ ac_field_name ++ "' (unexpected field)"))

/-- Embedding of the loop body of `translate_single_result` (search.py lines
147-155): walk the target fields; a raised `ACFieldTranslateException` records
a warning (via `add_response_warning`, modelled as the accumulated string
list) and skips the field; any other exception would propagate. -/
def translate_single_result_loop (a : BaseAdapter) (result : List (String × Py)) :
    List String → List (String × Py) → List String →
    Except ACError (List (String × Py) × List String)
  | [], translated_result, warnings => .ok (translated_result, warnings)
  | ac_field_name :: rest, translated_result, warnings =>
    match translate_field a ac_field_name result with
    | .ok v => translate_single_result_loop a result rest
        (dictSet translated_result ac_field_name v) warnings
    | .error (.fieldTranslate _) => translate_single_result_loop a result rest
        translated_result
        (warnings ++ ["Can't return unsupported field " ++ ac_field_name])
    | .error e => .error e

/-- Embedding of `BaseACServiceSearchMixin.translate_single_result` (search.py
lines 133-156): `target_fields` of `None` is replaced by the empty list, then
each field is translated through `translate_single_result_loop`. Returns the
translated result dictionary together with the warnings added. -/
def translate_single_result (a : BaseAdapter) (result : List (String × Py))
    (target_fields : Option (List String)) :
    Except ACError (List (String × Py) × List String) :=
  let tfs := match target_fields with
    | Option.none => []
    | some fs => fs
  translate_single_result_loop a result tfs [] []

/-- The dictionary `format_search_response` returns (search.py lines 174-177),
with the accessor results passed in (the accessors
`get_results_list_from_response` / `get_num_results_from_response` are
adapter-specific and abstract in the mixin). Warnings accumulated across
results are carried alongside. -/
structure SearchResponse where
  num_results : Py
  results : List (List (String × Py))

/-- Embedding of the result loop of `format_search_response` (search.py lines
168-173): translate every raw result in order, accumulating warnings. -/
def format_search_response_loop (a : BaseAdapter) (fields : Option (List String)) :
    List (List (String × Py)) → List (List (String × Py)) → List String →
    Except ACError (List (List (String × Py)) × List String)
  | [], acc, warnings => .ok (acc, warnings)
  | result :: rest, acc, warnings =>
    match translate_single_result a result fields with
    | .ok (tr, ws) => format_search_response_loop a fields rest (acc ++ [tr]) (warnings ++ ws)
    | .error e => .error e

/-- Embedding of `BaseACServiceSearchMixin.format_search_response` (search.py
lines 158-177), parameterised by the outputs of the two adapter-specific
response accessors. -/
def format_search_response (a : BaseAdapter)
    (results_list : List (List (String × Py))) (num_results : Py)
    (fields : Option (List String)) :
    Except ACError (SearchResponse × List String) :=
  match format_search_response_loop a fields results_list [] [] with
  | .ok (results, warnings) => .ok (⟨num_results, results⟩, warnings)
  | .error e => .error e

/-- Adapter state for `ACServiceTextSearchMixin`: the `direct_filters_mapping`
property, the `translate_filter_methods_registry` built by `conf_textsearch`,
and the two render methods a service may override (their return value is a
Python value, since the mixin's defaults return `None`, see search.py lines
570-599). -/
structure TSAdapter where
  direct_filters_mapping : List (String × String)
  translate_filter_methods_registry : List (String × (Py → TransResult))
  render_filter_term : String → Option Py → Option Py → Option Py → Py
  render_operator_term : String → Py

/-- Embedding of `ACServiceTextSearchMixin.translate_filter` (search.py lines
350-380).  The direct mapping is consulted first and passes the value through
unchanged; otherwise the registry is indexed directly, so a missing entry
raises `KeyError`, which — like a `KeyError` escaping the translator method
itself — is turned into the `not supported` `ACFilterParsingException`; an
`ACFilterParsingException` from the method is re-raised unchanged; any other
exception is wrapped into the `Unexpected error` `ACFilterParsingException`. -/
def translate_filter (a : TSAdapter) (ac_field_name : String) (value : Py) :
    Except ACError (String × Py) :=
  match a.direct_filters_mapping.lookup ac_field_name with
  | some mapped => .ok (mapped, value)
  | Option.none =>
    match a.translate_filter_methods_registry.lookup ac_field_name with
    | Option.none => .error (.filterParsing
        ("Filter for field '" ++ ac_field_name ++ "' not supported"))
    | some m =>
      match m value with
      | .ok k v => .ok (k, v)
      | .keyError _ => .error (.filterParsing
          ("Filter for field '" ++ ac_field_name ++ "' not supported"))
      | .acFilterParsingError msg => .error (.filterParsing msg)
      | .otherError cls msg => .error (.filterParsing
          ("Unexpected error processing filter for field '" ++ ac_field_name ++
           "' (" ++ cls ++ ": " ++ msg ++ ")"))

/-- Embedding of the local predicate `is_filter_term` inside
`process_filter_element` (search.py lines 403-404): length 3 and the middle
element equal to the string `":"`.  A Python `str` also has a length and
supports indexing, so a 3-character string with `':'` in the middle also
satisfies the check. -/
def is_filter_term : Py → Bool
  | .results [_, .str c, _] => c == ":"
  | .results _ => false
  | .str s => s.length == 3 && s.toList.get? 1 == some ':'
  | _ => false

/-- Embedding of the local predicate `is_operator` (search.py lines 406-407):
the element is a string whose uppercasing is AND, OR or NOT. -/
def is_operator : Py → Bool
  | .str s => pyUpper s == "AND" || pyUpper s == "OR" || pyUpper s == "NOT"
  | _ => false

/-- Embedding of the local predicate `is_not_structure` (search.py lines
409-413): `parse_results[0].upper() == 'NOT'`, with every exception
(IndexError on an empty sequence, AttributeError when the first element has no
`upper`, TypeError on a non-indexable value) caught and turned into `False`.
A plain string's `elm[0]` is a single character, never equal to `'NOT'`. -/
def is_not_structure : Py → Bool
  | .results (.str s :: _) => pyUpper s == "NOT"
  | _ => false

/-- Embedding of the filter-term branch of `process_filter_element` (search.py
lines 415-435): the value of a range term (a `ParseResults` of length 2) has
each bound translated separately, keeping the key of the first translation and
discarding the key of the second; any other value is translated whole.  The
`kwargs` dispatch on the translated value's runtime type then selects which
keyword argument of `render_filter_term` carries the value (numbers to
`value_number`, strings to `value_text`, 2-tuples to `value_range`, anything
else to no value argument at all). -/
def process_filter_term (a : TSAdapter) (fkey : String) (fvalue : Py) :
    Except ACError Py := do
  let (key, value) ←
    match fvalue with
    | .results [v0, v1] => do
        let (key, value1) ← translate_filter a fkey v0
        let (_, value2) ← translate_filter a fkey v1
        pure (key, Py.tuple2 value1 value2)
    | _ => translate_filter a fkey fvalue
  match value with
  | .num n => pure (a.render_filter_term key Option.none (some (.num n)) Option.none)
  | .str s => pure (a.render_filter_term key (some (.str s)) Option.none Option.none)
  | .tuple2 x y =>
      pure (a.render_filter_term key Option.none Option.none (some (.tuple2 x y)))
  | _ => pure (a.render_filter_term key Option.none Option.none Option.none)

mutual

/-- Embedding of `ACServiceTextSearchMixin.process_filter_element` (search.py
lines 382-451).  The source appends tokens to the mutable `filter_list`; here
the extended list is returned.  Branch order follows the source: `is_filter_term`
first (including the degenerate 3-character-string case, where `elm[0]` and
`elm[2]` are single characters), then `is_operator`, then `ParseResults`
structures walked recursively with parentheses added unless the structure is a
NOT structure, and any other element raises a bare `ACFilterParsingException`.
A term whose field position is not a string would abort in Python when used as
a dictionary key (and `is_filter_term` cannot hold on the remaining shapes);
both corners — unreachable for parser output — are modelled as a `pyError`. -/
def process_filter_element (a : TSAdapter) (elm : Py) (filter_list : List Py) :
    Except ACError (List Py) :=
  if is_filter_term elm then
    match elm with
    | .results [.str fkey, _, fvalue] => do
        pure (filter_list ++ [← process_filter_term a fkey fvalue])
    | .str s =>
        (match s.toList.get? 0, s.toList.get? 2 with
         | some c0, some c2 => do
             pure (filter_list ++
               [← process_filter_term a (String.singleton c0) (.str (String.singleton c2))])
         | _, _ => .error (.pyError "IndexError"))
    | _ => .error (.pyError "TypeError")
  else if is_operator elm then
    match elm with
    | .str s => .ok (filter_list ++ [a.render_operator_term (pyUpper s)])
    | _ => .error (.pyError "TypeError")
  else
    match elm with
    | .results items => do
        let fl1 := if is_not_structure (.results items) then filter_list
                   else filter_list ++ [Py.str "("]
        let fl2 ← process_filter_list a items fl1
        pure (if is_not_structure (.results items) then fl2 else fl2 ++ [Py.str ")"])
    | _ => .error (.filterParsing "")

/-- The `for item in elm` loop of `process_filter_element` (search.py lines
446-447): process each child in order, threading the token list. -/
def process_filter_list (a : TSAdapter) :
    List Py → List Py → Except ACError (List Py)
  | [], filter_list => .ok filter_list
  | item :: rest, filter_list => do
      process_filter_list a rest (← process_filter_element a item filter_list)

end

/-- Model of Python `''.join(out_filter_list)`: concatenation when every token
is a string, a raised `TypeError` (`Option.none`) otherwise. -/
def joinTokens : List Py → Option String
  | [] => some ""
  | .str s :: rest => (joinTokens rest).map (s ++ ·)
  | _ => Option.none

/-- Check `out_filter_list[0] == '('` (search.py line 469). -/
def firstIsOpenParen : List Py → Bool
  | .str s :: _ => s == "("
  | _ => false

/-- Embedding of `ACServiceTextSearchMixin.build_filter_string` (search.py
lines 453-474).  The call `parse_filter(filter_input_value)[0]` lives in
`services/acservice/utils.py`, which is not part of the sources; its outcome
is therefore passed in as `parsed_filter_0` (with `Option.none` standing for a
raised `pyparsing.ParseException`, which the source converts into
`ACFilterParsingException('Could not parse filter: "...")`).  When the
rendered token list starts with the string `"("`, its first and last positions
are removed before joining. -/
def build_filter_string (a : TSAdapter) (parsed_filter_0 : Option Py)
    (filter_input_value : String) : Except ACError String :=
  match parsed_filter_0 with
  | Option.none => .error (.filterParsing
      ("Could not parse filter: \x22" ++ filter_input_value ++ "\x22"))
  | some elm => do
    let out_filter_list ← process_filter_element a elm []
    let out_filter_list := if firstIsOpenParen out_filter_list
      then (out_filter_list.drop 1).dropLast
      else out_filter_list
    match joinTokens out_filter_list with
    | some s => pure s
    | Option.none => .error (.pyError "TypeError")

/-- Default implementation of `render_filter_term` (search.py lines 570-586):
the body constructs a `NotImplementedError` but lacks a `raise`, so the call
is a no-op expression and the method returns `None`. -/
def default_render_filter_term (_key : String) (_value_text : Option Py)
    (_value_number : Option Py) (_value_range : Option Py) : Py := Py.none

/-- Default implementation of `render_operator_term` (search.py lines
588-599): like `render_filter_term`, the `NotImplementedError` is constructed
but never raised, so the method returns `None`. -/
def default_render_operator_term (_operator : String) : Py := Py.none

/-- Outcome of calling `process_s_query_parameter(option, desc,
raise_exception_if_unsupported=True)` during capability probing: success, a
raised `ACException` (covering its subclasses), or a raised
`NotImplementedError`. -/
inductive SortProbeResult where
  | ok : SortProbeResult
  | acException : SortProbeResult
  | notImplementedError : SortProbeResult
deriving DecidableEq

/-- The per-option body of the `for option in SORT_OPTIONS` loop of
`get_supported_sorting_criteria` (search.py lines 305-322): probe descending
first (appending `-option` on success), then ascending (appending `option`);
`ACException` skips the probe, `NotImplementedError` returns the empty list
immediately (modelled as `Option.none`). -/
def get_supported_sorting_criteria_loop
    (probe : String → Bool → SortProbeResult) :
    List String → List String → Option (List String)
  | [], supported_criteria => some supported_criteria
  | option :: rest, supported_criteria =>
    match probe option true with
    | .notImplementedError => Option.none
    | r1 =>
      let acc1 := if r1 = .ok then supported_criteria ++ ["-" ++ option]
                  else supported_criteria
      match probe option false with
      | .notImplementedError => Option.none
      | r2 =>
        get_supported_sorting_criteria_loop probe rest
          (if r2 = .ok then acc1 ++ [option] else acc1)

/-- Embedding of `ACServiceTextSearchMixin.get_supported_sorting_criteria`
(search.py lines 297-324), parameterised by the canonical `SORT_OPTIONS` list
(defined in `services/acservice/constants.py`, not part of the sources) and by
the outcome of each `process_s_query_parameter` probe. -/
def get_supported_sorting_criteria (sort_options : List String)
    (probe : String → Bool → SortProbeResult) : List String :=
  match get_supported_sorting_criteria_loop probe sort_options [] with
  | some supported_criteria => supported_criteria
  | Option.none => []

/-- Does a field translation attempt for `f` over `result` succeed? -/
def field_translates (a : BaseAdapter) (result : List (String × Py)) (f : String) : Bool :=
  match translate_field a f result with
  | .ok _ => true
  | .error _ => false

/-! Concrete adapters and inputs used to witness the theorems below. -/

/-- Filter translator for the range-term analysis: the bound `"1"` translates
to provider key `"k1"`, every other bound to provider key `"k2"`. -/
def c1Translator : Py → TransResult
  | .str "1" => .ok "k1" (.str "1")
  | v => .ok "k2" v

/-- Adapter whose filter translator yields different provider keys for the two
bounds of the range `[1,5]`, and whose term renderer records the provider key
it was given. -/
def c1Adapter : TSAdapter where
  direct_filters_mapping := []
  translate_filter_methods_registry := [("f", c1Translator)]
  render_filter_term := fun key _ _ _ => .str key
  render_operator_term := fun op => .str op

/-- The parse element for the filter term `f:[1,5]`: a `ParseResults` of the
field name, `":"`, and a length-2 `ParseResults` holding the two bounds. -/
def c1RangeTerm : Py :=
  .results [.str "f", .str ":", .results [.str "1", .str "5"]]

/-- Adapter rendering terms as `key=value` and operators padded with spaces,
with an identity direct filter mapping for field `a`. -/
def c2Adapter : TSAdapter where
  direct_filters_mapping := [("a", "a")]
  translate_filter_methods_registry := []
  render_filter_term := fun key vt _ _ =>
    match vt with
    | some (.str s) => .str (key ++ "=" ++ s)
    | _ => .str (key ++ "=?")
  render_operator_term := fun op => .str (" " ++ op ++ " ")

/-- Modelled from the spec: the parse of `"a:1"` by `parse_filter`
(`services/acservice/utils.py`, not among the sources).  Per spec §4.2 the
root of a parse is always a single Group, so the tree is a Group containing
the single term `a:1`. -/
def parse_of_a1 : Py := .results [.results [.str "a", .str ":", .str "1"]]

/-- Modelled from the spec: the parse of `"(a:1)"` by `parse_filter`
(`services/acservice/utils.py`, not among the sources).  Per spec §3 a Group
represents a parenthesized sub-expression and per §4.2 the root is always a
single Group; for an input that is itself one parenthesized group the root
Group is that group, so the tree coincides with the parse of `"a:1"`
(spec §8 requires the two inputs to render identically). -/
def parse_of_paren_a1 : Py := .results [.results [.str "a", .str ":", .str "1"]]

/-- Adapter with no direct filter mapping and no registered filter translator
(and the mixin's default render methods). -/
def c3Adapter : TSAdapter where
  direct_filters_mapping := []
  translate_filter_methods_registry := []
  render_filter_term := default_render_filter_term
  render_operator_term := default_render_operator_term

/-- Adapter for the nesting example: identity filter mappings for `a`, `b`,
`c`, terms rendered as `key=value`, `AND`/`OR` padded with spaces and `NOT`
rendered as a prefix token. -/
def c4Adapter : TSAdapter where
  direct_filters_mapping := [("a", "a"), ("b", "b"), ("c", "c")]
  translate_filter_methods_registry := []
  render_filter_term := fun key vt _ _ =>
    match vt with
    | some (.str s) => .str (key ++ "=" ++ s)
    | _ => .str (key ++ "=?")
  render_operator_term := fun op =>
    if op == "NOT" then .str "NOT " else .str (" " ++ op ++ " ")

/-- Modelled from the spec: the parse of `"(a:1 OR b:2) AND NOT c:3"`
(`parse_filter` lives in `services/acservice/utils.py`, not among the
sources).  Per spec §8 this input parses into a 2-level tree: the root Group
holds the parenthesized OR group, the AND operator, and a NOT group whose
first element is the NOT operator followed by its single operand. -/
def parse_of_nested : Py :=
  .results [
    .results [.results [.str "a", .str ":", .str "1"], .str "OR",
              .results [.str "b", .str ":", .str "2"]],
    .str "AND",
    .results [.str "NOT", .results [.str "c", .str ":", .str "3"]]]

/-- Search adapter with three direct field mappings; the raw result below
lacks the source key of the `license` mapping, so that one field fails. -/
def c5Adapter : BaseAdapter where
  direct_fields_mapping :=
    [("name", "original_filename"), ("author", "username"), ("license", "license")]
  translate_field_methods_registry := []

/-- A raw provider result with two of the three mapped source keys. -/
def c5Result : List (String × Py) :=
  [("original_filename", .str "audio filename"), ("username", .str "alice")]

/-- Search adapter with one direct field mapping and one translator method
that raises `ValueError`. -/
def c6Adapter : BaseAdapter where
  direct_fields_mapping := [("name", "original_filename")]
  translate_field_methods_registry :=
    [("license", fun _ => .raised "ValueError" "bad license url")]

/-- Search adapter registering both a direct mapping and a translator method
for the same field `name`; the method would return a different value. -/
def c7Adapter : BaseAdapter where
  direct_fields_mapping := [("name", "original_filename")]
  translate_field_methods_registry := [("name", fun _ => .ok (.str "method value"))]

/-- Sort probe that supports every option in both directions. -/
def c8ProbeSupported : String → Bool → SortProbeResult := fun _ _ => .ok

/-- Sort probe raising `NotImplementedError` on the `duration` option only. -/
def c8ProbePartialNI : String → Bool → SortProbeResult := fun option _ =>
  if option == "duration" then .notImplementedError else .ok

/-- Adapter that keeps the mixin's default `render_filter_term` and
`render_operator_term` (the ones whose `NotImplementedError` is never
raised), with an identity direct filter mapping for field `a`. -/
def c9Adapter : TSAdapter where
  direct_filters_mapping := [("a", "a")]
  translate_filter_methods_registry := []
  render_filter_term := default_render_filter_term
  render_operator_term := default_render_operator_term

/-- Adapter whose `duration` filter translator raises `ValueError` on every
value. -/
def c3BadAdapter : TSAdapter where
  direct_filters_mapping := []
  translate_filter_methods_registry :=
    [("duration", fun _ => .otherError "ValueError" "oops")]
  render_filter_term := default_render_filter_term
  render_operator_term := default_render_operator_term

/-- Filter translator method that raises `KeyError` on every value. -/
def c10Translator : Py → TransResult := fun _ => .keyError "'duration'"

/-- Adapter registering `c10Translator` for the `duration` filter field. -/
def c10Adapter : TSAdapter where
  direct_filters_mapping := []
  translate_filter_methods_registry := [("duration", c10Translator)]
  render_filter_term := default_render_filter_term
  render_operator_term := default_render_operator_term

/-! Helper lemmas about the embedded definitions. -/

mutual

/-- The token list passed to `process_filter_element` is only ever appended
to: processing with accumulator `fl` equals processing with an empty
accumulator, prefixed by `fl`. -/
theorem process_filter_element_append (a : TSAdapter) (e : Py) (fl : List Py) :
    process_filter_element a e fl = (process_filter_element a e []).map (fl ++ ·) := by
  unfold process_filter_element
  cases e with
  | num n => simp [is_filter_term, is_operator, Except.map]
  | none => simp [is_filter_term, is_operator, Except.map]
  | tuple2 x y => simp [is_filter_term, is_operator, Except.map]
  | str s =>
    by_cases hft : is_filter_term (Py.str s) = true
    · simp only [hft, if_true]
      cases h0 : s.toList.get? 0 with
      | none => cases h2 : s.toList.get? 2 <;> simp [Except.map]
      | some c0 =>
        cases h2 : s.toList.get? 2 with
        | none => simp [Except.map]
        | some c2 =>
          cases hpt : process_filter_term a (String.singleton c0)
              (Py.str (String.singleton c2)) <;>
            simp [hpt, Except.map, Except.bind, bind, pure, Except.pure]
    · rw [Bool.not_eq_true] at hft
      by_cases hop : is_operator (Py.str s) = true
      · simp [hft, hop, Except.map]
      · rw [Bool.not_eq_true] at hop
        simp [hft, hop, Except.map]
  | results xs =>
    by_cases hft : is_filter_term (Py.results xs) = true
    · match xs, hft with
      | [k, Py.str c, v], hft =>
        cases k with
        | str fkey =>
          simp only [hft, if_true]
          cases hpt : process_filter_term a fkey v <;>
            simp [hpt, Except.map, Except.bind, bind, pure, Except.pure]
        | num n => simp [hft, Except.map]
        | tuple2 x y => simp [hft, Except.map]
        | results ys => simp [hft, Except.map]
        | none => simp [hft, Except.map]
    · have hop : is_operator (Py.results xs) = false := rfl
      simp only [hft, hop, Bool.false_eq_true, if_false]
      by_cases hns : is_not_structure (Py.results xs) = true
      · simp only [hns, if_true]
        rw [process_filter_list_append a xs fl]
        cases hl : process_filter_list a xs [] <;>
          simp [Except.map, Except.bind, bind, pure, Except.pure]
      · rw [Bool.not_eq_true] at hns
        simp only [hns, Bool.false_eq_true, if_false, List.nil_append]
        rw [process_filter_list_append a xs (fl ++ [Py.str "("]),
            process_filter_list_append a xs [Py.str "("]]
        cases hl : process_filter_list a xs [] <;>
          simp [Except.map, Except.bind, bind, pure, Except.pure, List.append_assoc]

/-- Accumulator-append property for `process_filter_list`. -/
theorem process_filter_list_append (a : TSAdapter) (xs : List Py) (fl : List Py) :
    process_filter_list a xs fl = (process_filter_list a xs []).map (fl ++ ·) := by
  cases xs with
  | nil => simp [process_filter_list, Except.map]
  | cons x rest =>
    unfold process_filter_list
    rw [process_filter_element_append a x fl]
    cases hx : process_filter_element a x [] with
    | error e => simp [Except.map, Except.bind, bind]
    | ok out =>
      simp only [Except.map, Except.bind, bind, List.nil_append]
      rw [process_filter_list_append a rest (fl ++ out),
          process_filter_list_append a rest out]
      cases hl : process_filter_list a rest [] <;>
        simp [Except.map, List.append_assoc]

end

/-- Every error raised by `translate_field` is an `ACFieldTranslateException`
(the source wraps all failures and its final raise uses that class). -/
theorem translate_field_error_kind (a : BaseAdapter) (f : String)
    (result : List (String × Py)) (e : ACError) :
    translate_field a f result = .error e → ∃ msg, e = ACError.fieldTranslate msg := by
  intro h
  unfold translate_field at h
  split at h
  · split at h
    · exact absurd h (by simp)
    · injection h with h2; exact ⟨_, h2.symm⟩
  · split at h
    · split at h
      · exact absurd h (by simp)
      · injection h with h2; exact ⟨_, h2.symm⟩
    · injection h with h2; exact ⟨_, h2.symm⟩

/-- Replacing the value stored under key `g` leaves lookups of other keys
unchanged. -/
theorem lookup_map_setkey (d : List (String × Py)) (g : String) (v : Py)
    (f : String) (h : f ≠ g) :
    (d.map (fun p => if p.1 == g then (g, v) else p)).lookup f = d.lookup f := by
  have hfg : (f == g) = false := by simp [h]
  induction d with
  | nil => rfl
  | cons p rest ih =>
    rcases p with ⟨k, b⟩
    simp only [List.map_cons]
    split
    · next hp =>
      have hk : k = g := by simpa using hp
      have hfk : (f == k) = false := by rw [hk]; exact hfg
      simp only [List.lookup, hfg, hfk, ih]
    · simp only [List.lookup, ih]

/-- Appending a new entry with key `g` leaves lookups of other keys
unchanged. -/
theorem lookup_append_single_ne (d : List (String × Py)) (g : String) (v : Py)
    (f : String) (h : f ≠ g) :
    (d ++ [(g, v)]).lookup f = d.lookup f := by
  have hfg : (f == g) = false := by simp [h]
  induction d with
  | nil => simp [List.lookup, hfg]
  | cons p rest ih =>
    rcases p with ⟨k, b⟩
    cases hp : (f == k) <;>
      simp only [List.cons_append, List.lookup, hp, List.append_eq, ih]

/-- Python dict update under key `g` leaves lookups of other keys
unchanged. -/
theorem dictSet_lookup_ne (d : List (String × Py)) (g : String) (v : Py)
    (f : String) (h : f ≠ g) : (dictSet d g v).lookup f = d.lookup f := by
  unfold dictSet
  by_cases hany : d.any (·.1 == g)
  · simp only [hany, if_true]
    exact lookup_map_setkey d g v f h
  · simp only [hany, Bool.false_eq_true, if_false]
    exact lookup_append_single_ne d g v f h

/-- Replacing the value stored under a present key `g` makes lookups of `g`
return the new value. -/
theorem lookup_map_setkey_eq (d : List (String × Py)) (g : String) (v : Py)
    (hany : d.any (fun p => p.1 == g) = true) :
    (d.map (fun p => if p.1 == g then (g, v) else p)).lookup g = some v := by
  induction d with
  | nil => simp at hany
  | cons p rest ih =>
    rcases p with ⟨k, b⟩
    simp only [List.map_cons]
    split
    · simp only [List.lookup, beq_self_eq_true]
    · next hp =>
      have hk : ¬(k = g) := by simpa using hp
      have hkg : (k == g) = false := beq_eq_false_iff_ne.mpr hk
      have hgk : (g == k) = false := beq_eq_false_iff_ne.mpr (fun h2 => hk h2.symm)
      have hrest : rest.any (fun p => p.1 == g) = true := by
        simp only [List.any_cons, hkg, Bool.false_or] at hany
        exact hany
      simp only [List.lookup, hgk]
      exact ih hrest

/-- A key absent from every entry of `d` looks up to nothing. -/
theorem lookup_none_of_any_false (d : List (String × Py)) (g : String)
    (hany : d.any (fun p => p.1 == g) = false) :
    d.lookup g = Option.none := by
  induction d with
  | nil => rfl
  | cons p rest ih =>
    rcases p with ⟨k, b⟩
    simp only [List.any_cons, Bool.or_eq_false_iff] at hany
    have hk : ¬(k = g) := by simpa using hany.1
    have hgk : (g == k) = false := beq_eq_false_iff_ne.mpr (fun h2 => hk h2.symm)
    simp only [List.lookup, hgk]
    exact ih hany.2

/-- Appending a fresh entry for key `g` makes lookups of `g` return its
value. -/
theorem lookup_append_singleton_self (d : List (String × Py)) (g : String)
    (v : Py) (hnone : d.lookup g = Option.none) :
    (d ++ [(g, v)]).lookup g = some v := by
  induction d with
  | nil => simp [List.lookup]
  | cons p rest ih =>
    rcases p with ⟨k, b⟩
    cases hgk : (g == k) with
    | true =>
      simp only [List.lookup, hgk] at hnone
      cases hnone
    | false =>
      simp only [List.cons_append, List.lookup, hgk, List.append_eq] at hnone ⊢
      exact ih hnone

/-- Python dict update: after `d[g] = v`, looking up `g` returns `v`. -/
theorem dictSet_lookup_eq (d : List (String × Py)) (g : String) (v : Py) :
    (dictSet d g v).lookup g = some v := by
  unfold dictSet
  by_cases hany : d.any (·.1 == g)
  · simp only [hany, if_true]
    exact lookup_map_setkey_eq d g v hany
  · simp only [hany, Bool.false_eq_true, if_false]
    rw [Bool.not_eq_true] at hany
    exact lookup_append_singleton_self d g v
      (lookup_none_of_any_false d g hany)

/-- Characterisation of the `translate_single_result` field loop: it always
succeeds, each failing field contributes exactly one warning in order, a
failing field is never added to the translated dictionary, keys outside the
requested fields are untouched, and every requested field whose translation
succeeds is retained with its translated value. -/
theorem translate_single_result_loop_spec (a : BaseAdapter)
    (result : List (String × Py)) :
    ∀ (fs : List String) (tr : List (String × Py)) (ws : List String),
    ∃ tr2, translate_single_result_loop a result fs tr ws =
        .ok (tr2, ws ++ (fs.filter (fun f => !field_translates a result f)).map
          (fun f => "Can't return unsupported field " ++ f)) ∧
      (∀ f, field_translates a result f = false → tr2.lookup f = tr.lookup f) ∧
      (∀ f, f ∉ fs → tr2.lookup f = tr.lookup f) ∧
      (∀ f v, translate_field a f result = .ok v → f ∈ fs →
        tr2.lookup f = some v) := by
  intro fs
  induction fs with
  | nil =>
    intro tr ws
    exact ⟨tr, by simp [translate_single_result_loop], fun _ _ => rfl,
      fun _ _ => rfl, fun f v _ hf => absurd hf (List.not_mem_nil f)⟩
  | cons g rest ih =>
    intro tr ws
    cases hg : translate_field a g result with
    | ok w =>
      have hgt : field_translates a result g = true := by
        simp [field_translates, hg]
      obtain ⟨tr2, heq, hfail, hout, hkeep⟩ := ih (dictSet tr g w) ws
      refine ⟨tr2, ?_, ?_, ?_, ?_⟩
      · simp only [translate_single_result_loop, hg]
        simpa [hgt] using heq
      · intro f hf
        have hfg : f ≠ g := fun hcontra => by
          rw [hcontra] at hf; rw [hgt] at hf; cases hf
        rw [hfail f hf, dictSet_lookup_ne tr g w f hfg]
      · intro f hf
        have hfr : f ∉ rest := fun hmem => hf (List.mem_cons_of_mem g hmem)
        have hfg : f ≠ g := fun hcontra => hf (hcontra ▸ List.mem_cons_self g rest)
        rw [hout f hfr, dictSet_lookup_ne tr g w f hfg]
      · intro f v hfv hf
        by_cases hfr : f ∈ rest
        · exact hkeep f v hfv hfr
        · have hfg : f = g := by
            rcases List.mem_cons.mp hf with h2 | h2
            · exact h2
            · exact absurd h2 hfr
          subst hfg
          have hvw : v = w := by
            rw [hg] at hfv
            exact (Except.ok.inj hfv).symm
          rw [hout f hfr, hvw, dictSet_lookup_eq tr f w]
    | error e =>
      obtain ⟨msg, rfl⟩ := translate_field_error_kind a g result e hg
      have hgt : field_translates a result g = false := by
        simp [field_translates, hg]
      obtain ⟨tr2, heq, hfail, hout, hkeep⟩ :=
        ih tr (ws ++ ["Can't return unsupported field " ++ g])
      refine ⟨tr2, ?_, hfail, ?_, ?_⟩
      · simp only [translate_single_result_loop, hg]
        simpa [hgt] using heq
      · intro f hf
        exact hout f (fun hmem => hf (List.mem_cons_of_mem g hmem))
      · intro f v hfv hf
        have hfg : f ≠ g := fun hcontra => by
          rw [hcontra, hg] at hfv; cases hfv
        rcases List.mem_cons.mp hf with h2 | h2
        · exact absurd h2 hfg
        · exact hkeep f v hfv h2

/-- With no requested fields (`None` or the empty list), every translated
result is the empty dictionary and no warning is recorded. -/
theorem translate_single_result_empty_fields (a : BaseAdapter)
    (result : List (String × Py)) (tf : Option (List String))
    (h : tf = Option.none ∨ tf = some []) :
    translate_single_result a result tf = .ok ([], []) := by
  rcases h with rfl | rfl <;> rfl

/-- The per-result field translation never fails the request: for every raw
result and every choice of requested fields it produces a translated
dictionary and a warning list. -/
theorem translate_single_result_total (a : BaseAdapter)
    (result : List (String × Py)) (tf : Option (List String)) :
    ∃ p, translate_single_result a result tf = .ok p := by
  unfold translate_single_result
  obtain ⟨tr2, heq, -⟩ := translate_single_result_loop_spec a result _ [] []
  exact ⟨_, heq⟩

/-- The result loop of `format_search_response` translates every raw result
(it never drops one or aborts). -/
theorem format_search_response_loop_spec (a : BaseAdapter)
    (fields : Option (List String)) :
    ∀ (rs : List (List (String × Py))) (acc : List (List (String × Py)))
      (ws : List String),
    ∃ out warns, format_search_response_loop a fields rs acc ws = .ok (out, warns) ∧
      out.length = acc.length + rs.length := by
  intro rs
  induction rs with
  | nil => intro acc ws; exact ⟨acc, ws, rfl, by simp⟩
  | cons r rest ih =>
    intro acc ws
    obtain ⟨⟨trv, wsv⟩, hp⟩ := translate_single_result_total a r fields
    obtain ⟨out, warns, hloop, hlen⟩ := ih (acc ++ [trv]) (ws ++ wsv)
    refine ⟨out, warns, ?_, ?_⟩
    · simp only [format_search_response_loop, hp, hloop]
    · simp only [List.length_append, List.length_cons, List.length_nil] at hlen ⊢
      omega

/-- The result loop with no requested fields: every translated result is the
empty dictionary. -/
theorem format_search_response_loop_empty (a : BaseAdapter)
    (fields : Option (List String)) (h : fields = Option.none ∨ fields = some []) :
    ∀ (rs : List (List (String × Py))) (acc : List (List (String × Py)))
      (ws : List String),
    format_search_response_loop a fields rs acc ws =
      .ok (acc ++ rs.map (fun _ => []), ws) := by
  intro rs
  induction rs with
  | nil => intro acc ws; simp [format_search_response_loop]
  | cons r rest ih =>
    intro acc ws
    have hr : translate_single_result a r fields = .ok ([], []) :=
      translate_single_result_empty_fields a r fields h
    simp only [format_search_response_loop, hr, ih]
    simp

/-- When no probe raises `NotImplementedError`, the sorting-criteria loop
collects, for each option in order, the prefixed descending variant and then
the plain ascending variant of every probe that succeeds. -/
theorem get_supported_sorting_criteria_loop_no_ni
    (probe : String → Bool → SortProbeResult) :
    ∀ (opts : List String) (acc : List String),
    (∀ o ∈ opts, probe o true ≠ .notImplementedError ∧
                 probe o false ≠ .notImplementedError) →
    get_supported_sorting_criteria_loop probe opts acc =
      some (acc ++ opts.flatMap (fun o =>
        (if probe o true = .ok then ["-" ++ o] else []) ++
        (if probe o false = .ok then [o] else []))) := by
  intro opts
  induction opts with
  | nil => intro acc _; simp [get_supported_sorting_criteria_loop]
  | cons o rest ih =>
    intro acc h
    have h1 := (h o (by simp)).1
    have h2 := (h o (by simp)).2
    have hrest : ∀ o2 ∈ rest, probe o2 true ≠ .notImplementedError ∧
        probe o2 false ≠ .notImplementedError := fun o2 ho2 => h o2 (by simp [ho2])
    cases hd : probe o true with
    | notImplementedError => exact absurd hd h1
    | ok =>
      cases ha : probe o false with
      | notImplementedError => exact absurd ha h2
      | ok =>
        simp [get_supported_sorting_criteria_loop, hd, ha, ih _ hrest,
              List.flatMap_cons, List.append_assoc]
      | acException =>
        simp [get_supported_sorting_criteria_loop, hd, ha, ih _ hrest,
              List.flatMap_cons, List.append_assoc]
    | acException =>
      cases ha : probe o false with
      | notImplementedError => exact absurd ha h2
      | ok =>
        simp [get_supported_sorting_criteria_loop, hd, ha, ih _ hrest,
              List.flatMap_cons, List.append_assoc]
      | acException =>
        simp [get_supported_sorting_criteria_loop, hd, ha, ih _ hrest,
              List.flatMap_cons, List.append_assoc]

/-- When some probe in the option list raises `NotImplementedError`, the
sorting-criteria loop aborts with `none`, whatever was collected so far. -/
theorem get_supported_sorting_criteria_loop_ni
    (probe : String → Bool → SortProbeResult) :
    ∀ (opts : List String) (acc : List String),
    (∃ o ∈ opts, probe o true = .notImplementedError ∨
                 probe o false = .notImplementedError) →
    get_supported_sorting_criteria_loop probe opts acc = Option.none := by
  intro opts
  induction opts with
  | nil => intro acc h; simp at h
  | cons o rest ih =>
    intro acc h
    cases hd : probe o true with
    | notImplementedError => simp [get_supported_sorting_criteria_loop, hd]
    | ok =>
      cases ha : probe o false with
      | notImplementedError => simp [get_supported_sorting_criteria_loop, hd, ha]
      | ok =>
        obtain ⟨o2, ho2, hcase⟩ := h
        rcases List.mem_cons.mp ho2 with rfl | ho2r
        · rcases hcase with hc | hc
          · rw [hd] at hc; cases hc
          · rw [ha] at hc; cases hc
        · simp [get_supported_sorting_criteria_loop, hd, ha, ih _ ⟨o2, ho2r, hcase⟩]
      | acException =>
        obtain ⟨o2, ho2, hcase⟩ := h
        rcases List.mem_cons.mp ho2 with rfl | ho2r
        · rcases hcase with hc | hc
          · rw [hd] at hc; cases hc
          · rw [ha] at hc; cases hc
        · simp [get_supported_sorting_criteria_loop, hd, ha, ih _ ⟨o2, ho2r, hcase⟩]
    | acException =>
      cases ha : probe o false with
      | notImplementedError => simp [get_supported_sorting_criteria_loop, hd, ha]
      | ok =>
        obtain ⟨o2, ho2, hcase⟩ := h
        rcases List.mem_cons.mp ho2 with rfl | ho2r
        · rcases hcase with hc | hc
          · rw [hd] at hc; cases hc
          · rw [ha] at hc; cases hc
        · simp [get_supported_sorting_criteria_loop, hd, ha, ih _ ⟨o2, ho2r, hcase⟩]
      | acException =>
        obtain ⟨o2, ho2, hcase⟩ := h
        rcases List.mem_cons.mp ho2 with rfl | ho2r
        · rcases hcase with hc | hc
          · rw [hd] at hc; cases hc
          · rw [ha] at hc; cases hc
        · simp [get_supported_sorting_criteria_loop, hd, ha, ih _ ⟨o2, ho2r, hcase⟩]

/-! Theorems settling the claims. -/

/-- C7: for every field registered in the direct fields mapping whose mapped
key is present in the result dictionary, `translate_field` returns exactly
`result[mapped_key]` unchanged.  The adapter is arbitrary — in particular its
translator-method registry may also hold an entry for the same field, which is
never consulted: the direct mapping takes precedence. -/
theorem c7_direct_field_mapping_precedence (a : BaseAdapter)
    (f mapped : String) (result : List (String × Py)) (v : Py)
    (hdirect : a.direct_fields_mapping.lookup f = some mapped)
    (hres : result.lookup mapped = some v) :
    translate_field a f result = .ok v := by
  simp only [translate_field, hdirect, hres]

/-- Witness for C7: an adapter registering both a direct mapping and a
translator method for `name` returns the direct-mapped raw value, not the
method's value. -/
theorem c7_direct_field_mapping_precedence_witness :
    translate_field c7Adapter "name"
        [("original_filename", Py.str "audio filename")] =
      .ok (Py.str "audio filename") :=
  c7_direct_field_mapping_precedence c7Adapter "name" "original_filename"
    [("original_filename", Py.str "audio filename")] (Py.str "audio filename")
    rfl rfl

/-- C6: `translate_field` raises `ACFieldTranslateException` whenever the
canonical name has no entry in either registry, whenever the direct-mapped key
is absent from the result, and whenever the translator method raises; in the
two wrapped cases the message carries the original cause (the `KeyError` and
its key, or the raised exception's class and message), and in the no-entry
case the cause recorded is the unexpected field itself. -/
theorem c6_translate_field_error_cases (a : BaseAdapter) (f : String)
    (result : List (String × Py)) :
    (a.direct_fields_mapping.lookup f = Option.none →
     a.translate_field_methods_registry.lookup f = Option.none →
     translate_field a f result = .error (.fieldTranslate
       ("Can't translate field '" ++ f ++ "' (unexpected field)"))) ∧
    (∀ mapped, a.direct_fields_mapping.lookup f = some mapped →
     result.lookup mapped = Option.none →
     translate_field a f result = .error (.fieldTranslate
       ("Can't translate field '" ++ f ++ "' (KeyError: '" ++ mapped ++ "')"))) ∧
    (∀ m cls msg, a.direct_fields_mapping.lookup f = Option.none →
     a.translate_field_methods_registry.lookup f = some m →
     m result = .raised cls msg →
     translate_field a f result = .error (.fieldTranslate
       ("Can't translate field '" ++ f ++ "' (" ++ cls ++ ": " ++ msg ++ ")"))) := by
  refine ⟨?_, ?_, ?_⟩
  · intro h1 h2; simp only [translate_field, h1, h2]
  · intro mapped h1 h2; simp only [translate_field, h1, h2]
  · intro m cls msg h1 h2 h3; simp only [translate_field, h1, h2, h3]

/-- Witness for C6: the three failure cases at concrete inputs — an
unregistered field, a direct mapping whose source key is missing from the raw
result, and a translator method raising `ValueError`. -/
theorem c6_translate_field_error_cases_witness :
    translate_field c6Adapter "author" [] = .error (.fieldTranslate
      "Can't translate field 'author' (unexpected field)") ∧
    translate_field c6Adapter "name" [] = .error (.fieldTranslate
      "Can't translate field 'name' (KeyError: 'original_filename')") ∧
    translate_field c6Adapter "license" [] = .error (.fieldTranslate
      "Can't translate field 'license' (ValueError: bad license url)") :=
  ⟨(c6_translate_field_error_cases c6Adapter "author" []).1 rfl rfl,
   (c6_translate_field_error_cases c6Adapter "name" []).2.1
     "original_filename" rfl rfl,
   (c6_translate_field_error_cases c6Adapter "license" []).2.2
     _ "ValueError" "bad license url" rfl rfl rfl⟩

/-- C9: the default `render_filter_term` and `render_operator_term` construct
a `NotImplementedError` whose `raise` is missing, so they never raise: every
invocation returns `None`, and processing a filter element with an adapter
that keeps the defaults appends `None` to the rendered filter list (shown for
an operator element and for a translated filter term). -/
theorem c9_default_render_returns_none :
    (∀ key vt vn vr, default_render_filter_term key vt vn vr = Py.none) ∧
    (∀ op, default_render_operator_term op = Py.none) ∧
    process_filter_element c9Adapter (.str "AND") [] = .ok [Py.none] ∧
    process_filter_element c9Adapter
        (.results [.str "a", .str ":", .str "1"]) [] = .ok [Py.none] := by
  refine ⟨fun _ _ _ _ => rfl, fun _ => rfl, ?_, ?_⟩
  · simp +decide [process_filter_element, c9Adapter, default_render_operator_term, pyUpper]
  · simp +decide [process_filter_element, process_filter_term, translate_filter, c9Adapter,
      default_render_filter_term, List.lookup,
      Except.bind, bind, pure, Except.pure, Except.map, Functor.map]

/-- C10: a `KeyError` escaping a registered filter-translator method is
reported by `translate_filter` with exactly the same
`ACFilterParsingException` message as a field with no registry entry at all —
the two situations are indistinguishable at the interface. -/
theorem c10_keyerror_indistinguishable (a : TSAdapter) (f : String) (v : Py) :
    (∀ m msg, a.direct_filters_mapping.lookup f = Option.none →
     a.translate_filter_methods_registry.lookup f = some m →
     m v = .keyError msg →
     translate_filter a f v = .error (.filterParsing
       ("Filter for field '" ++ f ++ "' not supported"))) ∧
    (a.direct_filters_mapping.lookup f = Option.none →
     a.translate_filter_methods_registry.lookup f = Option.none →
     translate_filter a f v = .error (.filterParsing
       ("Filter for field '" ++ f ++ "' not supported"))) := by
  refine ⟨?_, ?_⟩
  · intro m msg h1 h2 h3; simp only [translate_filter, h1, h2, h3]
  · intro h1 h2; simp only [translate_filter, h1, h2]

/-- Witness for C10: the registered `duration` translator raises `KeyError`
and the unregistered `made_up_field` has no entry; both yield their own
"not supported" message of the same shape. -/
theorem c10_keyerror_indistinguishable_witness :
    translate_filter c10Adapter "duration" (Py.str "3.5") =
      .error (.filterParsing "Filter for field 'duration' not supported") ∧
    translate_filter c10Adapter "made_up_field" (Py.str "3.5") =
      .error (.filterParsing "Filter for field 'made_up_field' not supported") :=
  ⟨(c10_keyerror_indistinguishable c10Adapter "duration" (Py.str "3.5")).1
     c10Translator "'duration'" rfl rfl rfl,
   (c10_keyerror_indistinguishable c10Adapter "made_up_field" (Py.str "3.5")).2
     rfl rfl⟩

/-- C3 counterexample: the claim asserts a distinct `FilterTranslateError`
kind, separate from the filter-parsing error.  In the code both an
untranslatable filter field and an ungrammatical filter string raise the same
exception class, `ACFilterParsingException`: at the concrete inputs below the
error raised by `translate_filter` for an unregistered field and the error
raised by `build_filter_string` for an unparsable string have equal
`exceptionClass`. -/
theorem c3_counterexample :
    translate_filter c3Adapter "duration" (Py.str "3.5") =
      .error (.filterParsing "Filter for field 'duration' not supported") ∧
    build_filter_string c3Adapter Option.none "a AND" =
      .error (.filterParsing "Could not parse filter: \x22a AND\x22") ∧
    exceptionClass (.filterParsing "Filter for field 'duration' not supported") =
      exceptionClass (.filterParsing "Could not parse filter: \x22a AND\x22") :=
  ⟨rfl, rfl, rfl⟩

/-- C3 (amended): for every canonical filter-field name with no entry in the
direct filters mapping or the filter-translator registry, and whenever a
registered translator raises, `translate_filter` fails — but with
`ACFilterParsingException`, the same exception class used for ungrammatical
filter strings, not a distinct `FilterTranslateError` kind; the failure is
fatal for the request (any error from filter processing propagates out of
`build_filter_string`). -/
theorem c3_translate_filter_error_amended (a : TSAdapter) (f : String) (v : Py) :
    (a.direct_filters_mapping.lookup f = Option.none →
     a.translate_filter_methods_registry.lookup f = Option.none →
     translate_filter a f v = .error (.filterParsing
       ("Filter for field '" ++ f ++ "' not supported"))) ∧
    (∀ m cls msg, a.direct_filters_mapping.lookup f = Option.none →
     a.translate_filter_methods_registry.lookup f = some m →
     m v = .otherError cls msg →
     translate_filter a f v = .error (.filterParsing
       ("Unexpected error processing filter for field '" ++ f ++
        "' (" ++ cls ++ ": " ++ msg ++ ")"))) ∧
    (∀ e s elm, process_filter_element a elm [] = .error e →
     build_filter_string a (some elm) s = .error e) := by
  refine ⟨?_, ?_, ?_⟩
  · intro h1 h2; simp only [translate_filter, h1, h2]
  · intro m cls msg h1 h2 h3; simp only [translate_filter, h1, h2, h3]
  · intro e s elm h
    simp only [build_filter_string, h, Except.bind, bind]

/-- Witness for C3's amended theorem: an unregistered field, a translator
raising `ValueError`, and the fatal propagation of the translation error out
of `build_filter_string`. -/
theorem c3_translate_filter_error_amended_witness :
    translate_filter c3Adapter "duration" (Py.str "3.5") =
      .error (.filterParsing "Filter for field 'duration' not supported") ∧
    translate_filter c3BadAdapter "duration" (Py.str "3.5") =
      .error (.filterParsing
        "Unexpected error processing filter for field 'duration' (ValueError: oops)") ∧
    build_filter_string c3Adapter
        (some (.results [.str "duration", .str ":", .str "3.5"])) "duration:3.5" =
      .error (.filterParsing "Filter for field 'duration' not supported") :=
  ⟨(c3_translate_filter_error_amended c3Adapter "duration" (Py.str "3.5")).1 rfl rfl,
   (c3_translate_filter_error_amended c3BadAdapter "duration" (Py.str "3.5")).2.1
     _ "ValueError" "oops" rfl rfl rfl,
   (c3_translate_filter_error_amended c3Adapter "duration" (Py.str "3.5")).2.2
     _ "duration:3.5" _
     (by simp +decide [process_filter_element, process_filter_term, translate_filter,
        c3Adapter, List.lookup, Except.bind, bind, pure, Except.pure,
        Except.map, Functor.map])⟩

/-- C8: `get_supported_sorting_criteria` probes every canonical sort option,
descending then ascending, in the raise-if-unsupported mode; when no probe
raises `NotImplementedError` every non-raising probe contributes its option
(descending variants prefixed with a minus sign), and when any probe raises
`NotImplementedError` the method returns the empty list immediately,
regardless of the options already collected. -/
theorem c8_sorting_criteria_probe (sort_options : List String)
    (probe : String → Bool → SortProbeResult) :
    ((∀ o ∈ sort_options, probe o true ≠ .notImplementedError ∧
        probe o false ≠ .notImplementedError) →
      get_supported_sorting_criteria sort_options probe =
        sort_options.flatMap (fun o =>
          (if probe o true = .ok then ["-" ++ o] else []) ++
          (if probe o false = .ok then [o] else []))) ∧
    ((∃ o ∈ sort_options, probe o true = .notImplementedError ∨
        probe o false = .notImplementedError) →
      get_supported_sorting_criteria sort_options probe = []) := by
  constructor
  · intro h
    unfold get_supported_sorting_criteria
    rw [get_supported_sorting_criteria_loop_no_ni probe sort_options [] h]
    simp
  · intro h
    unfold get_supported_sorting_criteria
    rw [get_supported_sorting_criteria_loop_ni probe sort_options [] h]

/-- Witness for C8: a fully supporting probe yields both directions of every
option (descending first, prefixed), and a probe raising
`NotImplementedError` on the second option's descending probe discards the
already-collected `created` entries and returns the empty list. -/
theorem c8_sorting_criteria_probe_witness :
    get_supported_sorting_criteria ["created", "duration"] c8ProbeSupported =
      ["-created", "created", "-duration", "duration"] ∧
    get_supported_sorting_criteria ["created", "duration"] c8ProbePartialNI = [] := by
  constructor
  · have h := (c8_sorting_criteria_probe ["created", "duration"] c8ProbeSupported).1
      (by intro o _; exact ⟨by simp [c8ProbeSupported], by simp [c8ProbeSupported]⟩)
    simpa [c8ProbeSupported] using h
  · exact (c8_sorting_criteria_probe ["created", "duration"] c8ProbePartialNI).2
      ⟨"duration", by simp, Or.inl (by simp [c8ProbePartialNI])⟩

/-- C5: a `FieldTranslateError` during translation of one requested field
records one warning and omits only that field from that result's translated
dictionary — every requested field whose translation succeeds is retained
with its translated value; response translation always produces one
translated result per raw result and never aborts because a single field
fails; and with the requested-fields parameter unset (`None`) or empty, every
translated result is the empty dictionary rather than an error. -/
theorem c5_partial_result_semantics (a : BaseAdapter)
    (result : List (String × Py)) :
    translate_single_result a result Option.none = .ok ([], []) ∧
    translate_single_result a result (some []) = .ok ([], []) ∧
    (∀ fs : List String, ∃ tr,
      translate_single_result a result (some fs) =
        .ok (tr, (fs.filter (fun f => !field_translates a result f)).map
          (fun f => "Can't return unsupported field " ++ f)) ∧
      (∀ f ∈ fs, field_translates a result f = false →
        tr.lookup f = Option.none) ∧
      (∀ f v, translate_field a f result = .ok v → f ∈ fs →
        tr.lookup f = some v)) ∧
    (∀ (results_list : List (List (String × Py))) (num : Py)
       (fields : Option (List String)), ∃ resp warns,
      format_search_response a results_list num fields = .ok (resp, warns) ∧
      resp.results.length = results_list.length ∧ resp.num_results = num) ∧
    (∀ (results_list : List (List (String × Py))) (num : Py),
      format_search_response a results_list num Option.none =
        .ok (⟨num, results_list.map (fun _ => [])⟩, [])) := by
  refine ⟨rfl, rfl, ?_, ?_, ?_⟩
  · intro fs
    obtain ⟨tr2, heq, hfail, -, hkeep⟩ :=
      translate_single_result_loop_spec a result fs [] []
    refine ⟨tr2, ?_, ?_, hkeep⟩
    · simpa [translate_single_result] using heq
    · intro f _ hff
      rw [hfail f hff]; rfl
  · intro results_list num fields
    obtain ⟨out, warns, hloop, hlen⟩ :=
      format_search_response_loop_spec a fields results_list [] []
    refine ⟨⟨num, out⟩, warns, ?_, ?_, rfl⟩
    · simp only [format_search_response, hloop]
    · simpa using hlen
  · intro results_list num
    have hloop := format_search_response_loop_empty a Option.none (Or.inl rfl)
      results_list [] []
    simp only [format_search_response, hloop]
    simp

/-- Witness for C5: of three requested fields one (`license`) fails
translation; the call returns exactly one warning, retains the two
successfully translated fields with their raw values, omits `license`, and
with no requested fields the result is empty. -/
theorem c5_partial_result_semantics_witness :
    (∃ tr, translate_single_result c5Adapter c5Result
        (some ["name", "author", "license"]) =
        .ok (tr, ["Can't return unsupported field license"]) ∧
      tr.lookup "name" = some (Py.str "audio filename") ∧
      tr.lookup "author" = some (Py.str "alice") ∧
      tr.lookup "license" = Option.none) ∧
    translate_single_result c5Adapter c5Result Option.none = .ok ([], []) := by
  constructor
  · obtain ⟨tr, heq, homit, hkeep⟩ :=
      (c5_partial_result_semantics c5Adapter c5Result).2.2.1
        ["name", "author", "license"]
    have hw : (["name", "author", "license"].filter
          (fun f => !field_translates c5Adapter c5Result f)).map
          (fun f => "Can't return unsupported field " ++ f) =
        ["Can't return unsupported field license"] := by decide
    rw [hw] at heq
    exact ⟨tr, heq,
      hkeep "name" (Py.str "audio filename") rfl (by simp),
      hkeep "author" (Py.str "alice") rfl (by simp),
      homit "license" (by simp) (by decide)⟩
  · exact (c5_partial_result_semantics c5Adapter c5Result).1

/-- C1 (amended): for every range-valued filter term,
`process_filter_element` applies filter translation independently to the low
and the high bound and recombines the two translated values into a 2-tuple
passed as the `value_range` argument of `render_filter_term`; the provider
key of the high bound's translation is discarded and the low bound's provider
key is used, with no consistency check and no exception on a mismatch. -/
theorem c1_range_translation_amended (a : TSAdapter) (fkey : String)
    (v0 v1 : Py) (k1 k2 : String) (w1 w2 : Py) (fl : List Py)
    (h0 : translate_filter a fkey v0 = .ok (k1, w1))
    (h1 : translate_filter a fkey v1 = .ok (k2, w2)) :
    process_filter_element a
        (.results [.str fkey, .str ":", .results [v0, v1]]) fl =
      .ok (fl ++ [a.render_filter_term k1 Option.none Option.none
        (some (.tuple2 w1 w2))]) := by
  have hft : is_filter_term
      (.results [Py.str fkey, Py.str ":", .results [v0, v1]]) = true := by
    simp [is_filter_term]
  simp only [process_filter_element, hft, if_true]
  simp only [process_filter_term, h0, h1, Except.bind, bind, pure, Except.pure,
    Except.map, Functor.map]

/-- Witness for C1's amended theorem, at the mismatching-keys adapter: the
range `f:[1,5]` is processed into the render call carrying key `k1`. -/
theorem c1_range_translation_amended_witness :
    process_filter_element c1Adapter c1RangeTerm [] = .ok [Py.str "k1"] :=
  c1_range_translation_amended c1Adapter "f" (Py.str "1") (Py.str "5")
    "k1" "k2" (Py.str "1") (Py.str "5") [] rfl rfl

/-- C1 counterexample: the claim requires the two bound translations of a
range value to yield the same provider key and a raise on mismatch.  In the
code the second translation's key is bound to `_` and discarded: for the
adapter below the low bound of `f:[1,5]` translates to provider key `k1` and
the high bound to the different key `k2`, yet `process_filter_element`
succeeds — no exception — and renders the term with `k1`. -/
theorem c1_counterexample :
    translate_filter c1Adapter "f" (Py.str "1") = .ok ("k1", Py.str "1") ∧
    translate_filter c1Adapter "f" (Py.str "5") = .ok ("k2", Py.str "5") ∧
    ("k1" : String) ≠ "k2" ∧
    process_filter_element c1Adapter c1RangeTerm [] = .ok [Py.str "k1"] := by
  refine ⟨rfl, rfl, by decide, ?_⟩
  simp +decide [c1RangeTerm, process_filter_element, process_filter_term,
    translate_filter, c1Adapter, c1Translator, List.lookup, Except.bind, bind,
    pure, Except.pure, Except.map, Functor.map]

/-- C4: rendering a Group emits an opening parenthesis, recurses into each
child left to right (the children walk is `process_filter_list`), and emits a
closing parenthesis — except when the group is a NOT structure (its first
element is the NOT operator), in which case the group's own parentheses are
suppressed; the example `"(a:1 OR b:2) AND NOT c:3"` renders with the OR
group's parentheses preserved and none around the NOT operand. -/
theorem c4_group_rendering :
    (∀ (a : TSAdapter) (xs : List Py) (fl : List Py),
      is_filter_term (.results xs) = false →
      is_not_structure (.results xs) = false →
      process_filter_element a (.results xs) fl =
        (process_filter_list a xs []).map
          (fun ts => fl ++ ([Py.str "("] ++ ts ++ [Py.str ")"]))) ∧
    (∀ (a : TSAdapter) (xs : List Py) (fl : List Py),
      is_filter_term (.results xs) = false →
      is_not_structure (.results xs) = true →
      process_filter_element a (.results xs) fl = process_filter_list a xs fl) ∧
    build_filter_string c4Adapter (some parse_of_nested)
        "(a:1 OR b:2) AND NOT c:3" =
      .ok "(a=1 OR b=2) AND NOT c=3" := by
  refine ⟨?_, ?_, ?_⟩
  · intro a xs fl hft hns
    have hop : is_operator (.results xs) = false := rfl
    simp only [process_filter_element, hft, hop, hns, Bool.false_eq_true, if_false]
    rw [process_filter_list_append a xs (fl ++ [Py.str "("])]
    cases hl : process_filter_list a xs [] <;>
      simp [Except.map, Except.bind, bind, pure, Except.pure, List.append_assoc]
  · intro a xs fl hft hns
    have hop : is_operator (.results xs) = false := rfl
    simp only [process_filter_element, hft, hop, hns, Bool.false_eq_true,
      if_false, if_true]
    cases hl : process_filter_list a xs fl <;>
      simp [hl, Except.bind, bind, pure, Except.pure]
  · simp +decide [build_filter_string, process_filter_element, process_filter_list,
      process_filter_term, translate_filter, c4Adapter, parse_of_nested, joinTokens,
      firstIsOpenParen, pyUpper, List.lookup, Except.bind, bind, pure, Except.pure,
      Except.map, Functor.map]

/-- Witness for C4: the OR group of the example gets its own parenthesis pair
around its children's rendering, and the NOT group is rendered without its
own parentheses. -/
theorem c4_group_rendering_witness :
    process_filter_element c4Adapter
        (.results [.results [.str "a", .str ":", .str "1"], .str "OR",
                   .results [.str "b", .str ":", .str "2"]]) [] =
      (process_filter_list c4Adapter
        [.results [.str "a", .str ":", .str "1"], .str "OR",
         .results [.str "b", .str ":", .str "2"]] []).map
          (fun ts => [] ++ ([Py.str "("] ++ ts ++ [Py.str ")"])) ∧
    process_filter_element c4Adapter
        (.results [.str "NOT", .results [.str "c", .str ":", .str "3"]]) [] =
      process_filter_list c4Adapter
        [.str "NOT", .results [.str "c", .str ":", .str "3"]] [] :=
  ⟨c4_group_rendering.1 c4Adapter _ [] (by decide) (by decide),
   c4_group_rendering.2.1 c4Adapter _ [] (by decide) (by decide)⟩

/-- C2: when the root parse node is itself a Group (neither a filter term nor
a NOT structure), the rendered token list is exactly the root's own opening
parenthesis, then the children's tokens, then the root's own closing
parenthesis, and `build_filter_string` strips exactly that one outermost pair:
the joined output is the children's tokens unchanged (parentheses of inner
groups, being strictly inside, are kept).  The spec-modelled parses of
`"(a:1)"` and `"a:1"` coincide, render to the same string, and yield `a=1`
with no redundant parentheses. -/
theorem c2_root_group_paren_strip :
    (∀ (a : TSAdapter) (xs inner : List Py) (s : String),
      is_filter_term (.results xs) = false →
      is_not_structure (.results xs) = false →
      process_filter_list a xs [] = .ok inner →
      process_filter_element a (.results xs) [] =
        .ok (Py.str "(" :: (inner ++ [Py.str ")"])) ∧
      build_filter_string a (some (.results xs)) s =
        (match joinTokens inner with
         | some out => .ok out
         | Option.none => .error (.pyError "TypeError"))) ∧
    parse_of_paren_a1 = parse_of_a1 ∧
    build_filter_string c2Adapter (some parse_of_paren_a1) "(a:1)" =
      build_filter_string c2Adapter (some parse_of_a1) "a:1" ∧
    build_filter_string c2Adapter (some parse_of_paren_a1) "(a:1)" = .ok "a=1" := by
  refine ⟨?_, rfl, rfl, ?_⟩
  · intro a xs inner s hft hns hl
    have hop : is_operator (.results xs) = false := rfl
    have helem : process_filter_element a (.results xs) [] =
        .ok (Py.str "(" :: (inner ++ [Py.str ")"])) := by
      simp only [process_filter_element, hft, hop, hns, Bool.false_eq_true,
        if_false, List.nil_append]
      rw [process_filter_list_append a xs [Py.str "("], hl]
      simp [Except.map, Except.bind, bind, pure, Except.pure]
    refine ⟨helem, ?_⟩
    simp only [build_filter_string, helem, Except.bind, bind]
    simp [firstIsOpenParen, List.dropLast_concat, pure, Except.pure]
  · simp +decide [build_filter_string, process_filter_element, process_filter_list,
      process_filter_term, translate_filter, c2Adapter, parse_of_paren_a1,
      joinTokens, firstIsOpenParen, List.lookup, Except.bind, bind, pure,
      Except.pure, Except.map, Functor.map]

/-- Witness for C2: the root group wrapping the single term `a:1` renders to
the token list `(`, `a=1`, `)` and `build_filter_string` strips that root
pair, producing `a=1`. -/
theorem c2_root_group_paren_strip_witness :
    process_filter_element c2Adapter
        (.results [.results [.str "a", .str ":", .str "1"]]) [] =
      .ok [Py.str "(", Py.str "a=1", Py.str ")"] ∧
    build_filter_string c2Adapter
        (some (.results [.results [.str "a", .str ":", .str "1"]])) "(a:1)" =
      .ok "a=1" := by
  have h := c2_root_group_paren_strip.1 c2Adapter
    [.results [.str "a", .str ":", .str "1"]] [Py.str "a=1"] "(a:1)"
    (by decide) (by decide)
    (by simp +decide [process_filter_list, process_filter_element,
        process_filter_term, translate_filter, c2Adapter, List.lookup,
        Except.bind, bind, pure, Except.pure, Except.map, Functor.map])
  exact ⟨h.1, h.2⟩

end ACMediator
